import Mathlib

/-!
Verification of the motion controller of the mobile-robotics repository
(`src/utils/motion.py`): the `RepeatedTimer` periodic task, the `Robot`
motion primitives (`move`, `turn`, `go_straight`, `time_move`),
the composite `move_to_target`, the obstacle watchdog `test_saw_wall`
and the avoidance loop `wall_following`.

The Python code is shallowly embedded: pure computations become Lean
functions over `ℤ` (wheel speeds, raw sensor words) and `ℚ` (distances,
angles, durations); side effects (motor writes to the transport, flag
mutations, timer start/stop) become explicit event lists; the loops of
`time_move` and `wall_following` become step functions folded over a
scripted sequence of sensor observations.
-/

/- ### RepeatedTimer (motion.py lines 6-32) -/

/-- The three statements of `RepeatedTimer._run` (motion.py lines 19-22),
in source order: `self.is_running = False`, then `self.start()` (which,
since `is_running` was just cleared, schedules `Timer(interval, self._run)`
and starts it), and only then `self.function(*args, **kwargs)`. -/
inductive RTEvent where
  | setNotRunning
  | scheduleNext
  | callFunction
deriving DecidableEq, Repr

/-- The body of `RepeatedTimer._run` as the ordered list of its effects:
the next firing is scheduled second, before the action is invoked. -/
def RepeatedTimer.runEvents : List RTEvent :=
  [RTEvent.setNotRunning, RTEvent.scheduleNext, RTEvent.callFunction]

/-- Firing timeline induced by the code: the constructor calls `start()` at
time 0, scheduling the first `_run` at `interval`; each `_run` schedules the
next `Timer(interval, _run)` at its own start, before invoking the action,
so the n-th firing (0-indexed) occurs at `(n+1) * interval` independently of
how long the action takes. -/
def RepeatedTimer.fireTime (interval : ℚ) (n : ℕ) : ℚ :=
  (n + 1) * interval

/-- Modelled from the spec's words (§4.1): if each firing rescheduled itself
only after the action completed, the actual period would be
`interval + action execution time`, so the n-th firing would occur at
`(n+1) * (interval + actionDur)`. Kept separate from
`RepeatedTimer.fireTime`, which follows the code. -/
def RepeatedTimer.fireTimeSpec (interval actionDur : ℚ) (n : ℕ) : ℚ :=
  (n + 1) * (interval + actionDur)

/- ### Speed encoding and decoding (motion.py lines 196-199 and 75-78) -/

/-- `Robot.move` encoding of a wheel speed for the transport
(motion.py lines 196-199): a negative value is replaced by
`value + 2**16` before `set_var`. -/
def move_encode (v : ℤ) : ℤ :=
  if v < 0 then v + 2 ^ 16 else v

/-- `Robot.get_speed` decoding of a raw motor-speed word
(motion.py lines 75-78): a reading above 9999 is corrected by
subtracting `2**16`. -/
def get_speed_decode (w : ℤ) : ℤ :=
  if w > 9999 then w - 2 ^ 16 else w

/- ### Calibration constants (motion.py lines 41-44) -/

/-- `self.speed_to_mm_s = 0.31573` (motion.py line 43). -/
def speed_to_mm_s : ℚ :=
  31573 / 100000

/-- `self.wheeltowheel_length = 95` (motion.py line 41). -/
def wheeltowheel_length : ℚ :=
  95

/- ### Motion primitives: go_straight and turn (motion.py lines 118-182) -/

/-- The motor writes issued by `Robot.go_straight` (motion.py lines
130-133) for stored speed `speed` and argument `distance`: one
`move(speed, speed)` if `distance > 0`, one `move(-speed, -speed)` if
`distance < 0`, and none when `distance = 0` (neither branch fires). -/
def go_straight_writes (speed : ℤ) (distance : ℚ) : List (ℤ × ℤ) :=
  if distance > 0 then [(speed, speed)]
  else if distance < 0 then [(-speed, -speed)]
  else []

/-- The planned duration of `Robot.go_straight` (motion.py line 127):
`target_time = abs(distance) / (self.speed * self.speed_to_mm_s)`. -/
def go_straight_duration (speed : ℤ) (distance : ℚ) : ℚ :=
  |distance| / ((speed : ℚ) * speed_to_mm_s)

/-- The value `Robot.go_straight` returns to its caller: the Python
function has no `return` statement, so every call — the zero-distance
one included — returns the implicit `None`, modelled as `none`
(an explicit `return False` would be `some false`). -/
def go_straight_ret (distance : ℚ) : Option Bool :=
  none

/-- The motor writes issued by `Robot.turn` (motion.py lines 172-177)
for stored speed `speed` and argument `turn_angle`: `move(-speed, speed)`
if positive (left), `move(speed, -speed)` if negative (right), and none
on zero (the `else` branch returns before commanding). -/
def turn_writes (speed : ℤ) (turn_angle : ℚ) : List (ℤ × ℤ) :=
  if turn_angle > 0 then [(-speed, speed)]
  else if turn_angle < 0 then [(speed, -speed)]
  else []

/-- The value `Robot.turn` returns: `return False` in the zero-angle
branch (motion.py line 177), the implicit `None` otherwise. -/
def turn_ret (turn_angle : ℚ) : Option Bool :=
  if turn_angle = 0 then some false else none

/- ### move_to_target (motion.py lines 94-116) -/

/-- Python's `%` on rationals (sign follows the divisor):
`pymod a b = a - b * ⌊a / b⌋`. -/
def pymod (a b : ℚ) : ℚ :=
  a - b * ⌊a / b⌋

/-- The conditional wrap of `Robot.move_to_target` (motion.py lines
111-112): `if abs(turn_angle) > 180: turn_angle = (turn_angle + 360) % 360`;
outside that branch the angle is left unchanged. -/
def turn_angle_wrap (turn_angle : ℚ) : ℚ :=
  if |turn_angle| > 180 then pymod (turn_angle + 360) 360 else turn_angle

/-- The angle `Robot.move_to_target` passes to `turn` (motion.py lines
110-115): `turn_angle = path_angle - self.curr_pos[2]`, then the
conditional wrap. `path_angle` is the value of
`degrees(atan2(dy, dx))` on line 107, taken here as a parameter since it
is an exact real quantity supplied by the math library. -/
def move_to_target_turn_angle (path_angle curr_angle : ℚ) : ℚ :=
  turn_angle_wrap (path_angle - curr_angle)

/-- The two sub-commands `move_to_target` can issue. -/
inductive MTCmd where
  | turnCmd (angle : ℚ)
  | straightCmd (distance : ℚ)
deriving DecidableEq, Repr

/-- `Robot.move_to_target` (motion.py lines 94-116) for current pose
`curr = (x, y, angle)` and target `target = (tx, ty)`: if the target
equals the current `(x, y)` it returns `False` at once and issues
nothing; otherwise it returns `None` after calling `turn` with the
wrapped angle and then `go_straight` with the distance. `path_angle`
(line 107, `degrees(atan2(...))`) and `distance` (line 104, `sqrt(...)`)
are exact real quantities, taken as parameters. -/
def move_to_target (curr : ℚ × ℚ × ℚ) (target : ℚ × ℚ)
    (path_angle distance : ℚ) : Option Bool × List MTCmd :=
  if target = (curr.1, curr.2.1) then (some false, [])
  else (none, [MTCmd.turnCmd (move_to_target_turn_angle path_angle curr.2.2),
               MTCmd.straightCmd distance])

/-- The transport writes a list of `move_to_target` sub-commands expands
to, per `turn` and `go_straight`. -/
def mt_writes (speed : ℤ) (cmds : List MTCmd) : List (ℤ × ℤ) :=
  cmds.flatMap fun c =>
    match c with
    | MTCmd.turnCmd a => turn_writes speed a
    | MTCmd.straightCmd d => go_straight_writes speed d

/- ### time_move (motion.py lines 141-157) -/

/-- Control points of `Robot.time_move`: `loop` is the outer
`while t <= target_time` condition check, `spin` is the inner
`while self.flag_local: continue` busy-wait, `done` is the return. -/
inductive TMPhase where
  | loop
  | spin
  | done
deriving DecidableEq, Repr

/-- State of `Robot.time_move`: the control point and the elapsed-time
counter `t` (initially 0). -/
structure TMState where
  phase : TMPhase
  t : ℚ
deriving DecidableEq, Repr

/-- One step of `Robot.time_move` (motion.py lines 147-156), consuming
one observation of the shared `flag_local`. At `loop` with `t ≤ target`:
a clear flag advances `t` by 0.1 and sleeps 0.1 s; a set flag executes
`t = target_time` and enters the busy-wait. At `loop` with
`t > target` the outer while exits. At `spin`: a set flag keeps
spinning, a clear flag falls back to the outer condition check. -/
def time_move_step (target : ℚ) (s : TMState) (flag : Bool) : TMState :=
  match s.phase with
  | TMPhase.done => s
  | TMPhase.spin =>
      if flag then s else { phase := TMPhase.loop, t := s.t }
  | TMPhase.loop =>
      if s.t > target then { phase := TMPhase.done, t := s.t }
      else if flag then { phase := TMPhase.spin, t := target }
      else { phase := TMPhase.loop, t := s.t + 1 / 10 }

/-- Run `Robot.time_move target` from its entry state (`t = 0`, at the
outer condition) over a scripted sequence of `flag_local` observations. -/
def time_move_run (target : ℚ) (flags : List Bool) : TMState :=
  flags.foldl (time_move_step target) { phase := TMPhase.loop, t := 0 }

/- ### test_saw_wall (motion.py lines 212-234) -/

/-- Side effects of `Robot.test_saw_wall` in scheduled (`thread=True`)
form: stopping/starting the watchdog `RepeatedTimer`, writing
`flag_local`, writing `flag_skip`, and the call to `wall_following`. -/
inductive TSWEvent where
  | rtStop
  | rtStart
  | setFlagLocal (b : Bool)
  | setFlagSkip (n : ℕ)
  | callWallFollowing
deriving DecidableEq, Repr

/-- `Robot.test_saw_wall` (motion.py lines 212-234) as its return value
paired with the list of side effects it performs, given a snapshot
`prox` of `prox.horizontal`. Detection (line 222) is
`any([x > wall_threshold for x in prox[:-2]])` — all entries but the
last two. On detection with `thread=True` the function stops its own
timer, sets `flag_local`, sets `flag_skip = 2`, runs `wall_following`,
clears `flag_local`, restarts the timer, and falls through to
`return False`; with `thread=False` it just returns `True`. With no
detection it returns `False` with no effects. -/
def test_saw_wall (prox : List ℤ) (thread : Bool) (wall_threshold : ℤ) :
    Bool × List TSWEvent :=
  if (prox.dropLast.dropLast).any (fun x => x > wall_threshold) then
    if thread then
      (false, [TSWEvent.rtStop, TSWEvent.setFlagLocal true,
               TSWEvent.setFlagSkip 2, TSWEvent.callWallFollowing,
               TSWEvent.setFlagLocal false, TSWEvent.rtStart])
    else
      (true, [])
  else
    (false, [])

/- ### wall_following (motion.py lines 236-276) -/

/-- The `prev_state` variable of `Robot.wall_following`: `"forward"` or
`"turning"`. -/
inductive WFPrev where
  | forward
  | turning
deriving DecidableEq, Repr

/-- Loop state of `Robot.wall_following`: `prev_state`, the clear
counter `count`, and the `found_path` exit flag. -/
structure WFState where
  prev : WFPrev
  count : ℕ
  found : Bool
deriving DecidableEq, Repr

/-- One iteration of the `while not found_path` loop of
`Robot.wall_following` (motion.py lines 251-276), given the result
`saw` of `test_saw_wall(thread=False)` for this cycle. Returns the
next state and the motor writes issued this iteration. The source
hardcodes every wheel speed to ±100 and never reads the
`motor_speed` parameter or the stored `self.speed`; both are kept as
(unused) arguments to state that faithfully. -/
def wall_following_step (motor_speed speed : ℤ) (s : WFState) (saw : Bool) :
    WFState × List (ℤ × ℤ) :=
  if s.found then (s, [])
  else
    let next :=
      if saw then
        if s.prev = WFPrev.forward then
          ({ prev := WFPrev.turning, count := 0, found := false }, [((100 : ℤ), (-100 : ℤ))])
        else (s, [])
      else
        if s.prev = WFPrev.turning then
          ({ prev := WFPrev.forward, count := s.count + 1, found := false }, [((100 : ℤ), (100 : ℤ))])
        else
          ({ prev := WFPrev.turning, count := s.count + 1, found := false }, [((-100 : ℤ), (100 : ℤ))])
    if next.1.count ≥ 15 then
      ({ next.1 with found := true }, next.2 ++ [((0 : ℤ), (0 : ℤ))])
    else next

/-- Run `Robot.wall_following` over a scripted list of per-iteration
detection results. The initial state is `prev_state = "forward"`,
`count = 0`, `found_path = False`, and the initial
`move(l_speed=100, r_speed=100)` of line 247 is the first write. -/
def wall_following_run (motor_speed speed : ℤ) (script : List Bool) :
    WFState × List (ℤ × ℤ) :=
  script.foldl
    (fun acc saw =>
      let r := wall_following_step motor_speed speed acc.1 saw
      (r.1, acc.2 ++ r.2))
    ({ prev := WFPrev.forward, count := 0, found := false }, [((100 : ℤ), (100 : ℤ))])

/-! ## Theorems -/

/-- C1 counterexample: in `RepeatedTimer._run` the next firing is
scheduled *before* the current invocation of the action begins, not
after it completes — `scheduleNext` precedes `callFunction` in the
body's event order — and with interval 1 and action duration 1 the
second firing occurs at time 2, not at the `(interval + duration)`-
periodic time 4 that the claimed rescheduling would give. -/
theorem repeatedTimer_claim_false :
    ¬ (RepeatedTimer.runEvents.indexOf RTEvent.callFunction <
        RepeatedTimer.runEvents.indexOf RTEvent.scheduleNext) ∧
      RepeatedTimer.fireTime 1 1 ≠ RepeatedTimer.fireTimeSpec 1 1 1 := by
  constructor
  · decide
  · norm_num [RepeatedTimer.fireTime, RepeatedTimer.fireTimeSpec]

/-- C1 (amended): `RepeatedTimer._run` schedules the next firing before
invoking the action, so consecutive firings are exactly `interval`
apart regardless of the action's duration; in particular, with
interval 1 and an action that takes 2, the next firing (time 2) occurs
while the previous invocation (running on [1, 3]) is still executing,
so the action can be re-entered concurrently. -/
theorem repeatedTimer_schedules_before_action :
    RepeatedTimer.runEvents.indexOf RTEvent.scheduleNext <
      RepeatedTimer.runEvents.indexOf RTEvent.callFunction ∧
    (∀ (interval : ℚ) (n : ℕ),
        RepeatedTimer.fireTime interval (n + 1) -
          RepeatedTimer.fireTime interval n = interval) ∧
    RepeatedTimer.fireTime 1 1 < RepeatedTimer.fireTime 1 0 + 2 := by
  refine ⟨by decide, ?_, ?_⟩
  · intro interval n
    unfold RepeatedTimer.fireTime
    push_cast
    ring
  · norm_num [RepeatedTimer.fireTime]

/-- C5: encoding a wheel speed for the transport as `Robot.move` does
(add `2^16` when negative) and decoding the read-back word as
`Robot.get_speed` does (subtract `2^16` when above 9999) recovers every
`v` in `[-9999, 9999]`: negatives in `[-9999, -1]` round-trip exactly
and values in `[0, 9999]` pass through unchanged. -/
theorem speed_encode_decode_roundtrip (v : ℤ)
    (h1 : -9999 ≤ v) (h2 : v ≤ 9999) :
    get_speed_decode (move_encode v) = v := by
  unfold move_encode get_speed_decode
  split <;> split <;> omega

/-- Witness for C5 at `v = -5`. -/
theorem speed_encode_decode_roundtrip_witness :
    (-9999 : ℤ) ≤ -5 ∧ (-5 : ℤ) ≤ 9999 ∧
      get_speed_decode (move_encode (-5)) = -5 :=
  ⟨by decide, by decide,
    speed_encode_decode_roundtrip (-5) (by decide) (by decide)⟩

/-- C6: for a positive distance `d`, `go_straight` commands both wheels
at `+speed` and its planned duration is `d / (speed * speed_to_mm_s)`;
for a negative `d`, it commands both wheels at `-speed` with planned
duration `(-d) / (speed * speed_to_mm_s)` (that is, `|d| / ...`). -/
theorem go_straight_plan_correct (speed : ℤ) (d : ℚ) :
    (d > 0 → go_straight_writes speed d = [(speed, speed)] ∧
      go_straight_duration speed d = d / ((speed : ℚ) * speed_to_mm_s)) ∧
    (d < 0 → go_straight_writes speed d = [(-speed, -speed)] ∧
      go_straight_duration speed d = -d / ((speed : ℚ) * speed_to_mm_s)) := by
  constructor
  · intro hd
    constructor
    · simp [go_straight_writes, hd]
    · simp [go_straight_duration, abs_of_pos hd]
  · intro hd
    have h1 : ¬ d > 0 := not_lt.mpr hd.le
    constructor
    · simp [go_straight_writes, h1, hd]
    · simp [go_straight_duration, abs_of_neg hd]

/-- Witness for C6 at `speed = 100`, `d = -50`. -/
theorem go_straight_plan_correct_witness :
    go_straight_writes 100 (-50) = [(-100, -100)] ∧
      go_straight_duration 100 (-50) =
        -(-50 : ℚ) / ((100 : ℚ) * speed_to_mm_s) :=
  (go_straight_plan_correct 100 (-50)).2 (by norm_num)

/-- C8: when the target equals the current `(x, y)` of the stored pose,
`move_to_target` returns `False` immediately (the "already at target"
no-op signal), issues no sub-command, and hence no transport write
occurs. -/
theorem move_to_target_at_target_noop (speed : ℤ) (curr : ℚ × ℚ × ℚ)
    (target : ℚ × ℚ) (path_angle distance : ℚ)
    (h : target = (curr.1, curr.2.1)) :
    move_to_target curr target path_angle distance = (some false, []) ∧
      mt_writes speed (move_to_target curr target path_angle distance).2
        = [] := by
  refine ⟨?_, ?_⟩ <;> simp [move_to_target, h, mt_writes]

/-- Witness for C8 at pose `(1, 2, 30)`, target `(1, 2)`. -/
theorem move_to_target_at_target_noop_witness :
    move_to_target (1, 2, 30) (1, 2) 0 0 = (some false, []) ∧
      mt_writes 100 (move_to_target (1, 2, 30) (1, 2) 0 0).2 = [] :=
  move_to_target_at_target_noop 100 (1, 2, 30) (1, 2) 0 0 rfl

/-- C9 counterexample: a zero-distance `go_straight` does *not* signal
an explicit no-op to its caller — it returns `none` (Python's implicit
`None`), exactly the value a normal nonzero-distance call returns, so
the caller cannot distinguish the no-op (only `turn` returns an
explicit `False`). -/
theorem go_straight_zero_signals_nothing :
    go_straight_ret 0 = none ∧ go_straight_ret 0 = go_straight_ret 100 :=
  ⟨rfl, rfl⟩

/-- C9 (amended): a zero-angle `turn` issues no motor command and
signals an explicit no-op (`return False`); a zero-distance
`go_straight` issues no motor command either, but signals nothing: it
returns the same implicit `None` as every other call (nonzero-angle
`turn` also returns `None`). -/
theorem zero_motion_requests (speed : ℤ) :
    turn_writes speed 0 = [] ∧ turn_ret 0 = some false ∧
      go_straight_writes speed 0 = [] ∧ go_straight_ret 0 = none ∧
      (∀ a : ℚ, a ≠ 0 → turn_ret a = none) ∧
      (∀ d : ℚ, go_straight_ret d = none) := by
  refine ⟨?_, rfl, ?_, rfl, ?_, fun d => rfl⟩
  · simp [turn_writes]
  · simp [go_straight_writes]
  · intro a ha
    simp [turn_ret, ha]

/-- Witness for C9's amended statement at `speed = 100`, angle 90. -/
theorem zero_motion_requests_witness :
    turn_ret 0 = some false ∧ turn_ret 90 = none :=
  ⟨(zero_motion_requests 100).2.1,
    (zero_motion_requests 100).2.2.2.2.1 90 (by norm_num)⟩

/-- C7: `move_to_target` turns by `path_angle - curr_angle`, replaced by
`(turn_angle + 360) % 360` exactly when `|turn_angle| > 180` and left
unchanged otherwise; the first command it issues (when not already at
the target) is `turn` with that value; and the wrap does not guarantee
a result in `(-180, 180]`: at `path_angle = 190`, `curr_angle = 0` the
wrapped result is 190, which exceeds 180. -/
theorem move_to_target_turn_angle_wrap :
    (∀ pa ca : ℚ, |pa - ca| ≤ 180 →
        move_to_target_turn_angle pa ca = pa - ca) ∧
    (∀ pa ca : ℚ, |pa - ca| > 180 →
        move_to_target_turn_angle pa ca = pymod (pa - ca + 360) 360) ∧
    (∀ (curr : ℚ × ℚ × ℚ) (target : ℚ × ℚ) (pa d : ℚ),
        target ≠ (curr.1, curr.2.1) →
        (move_to_target curr target pa d).2.head? =
          some (MTCmd.turnCmd (move_to_target_turn_angle pa curr.2.2))) ∧
    (move_to_target_turn_angle 190 0 = 190 ∧ ¬ (190 : ℚ) ≤ 180) := by
  refine ⟨?_, ?_, ?_, ?_, by norm_num⟩
  · intro pa ca h
    simp [move_to_target_turn_angle, turn_angle_wrap, not_lt.mpr h]
  · intro pa ca h
    simp [move_to_target_turn_angle, turn_angle_wrap, h]
  · intro curr target pa d h
    simp [move_to_target, h]
  · have h1 : ⌊((190 : ℚ) - 0 + 360) / 360⌋ = 1 := by
      rw [Int.floor_eq_iff]
      norm_num
    simp only [move_to_target_turn_angle, turn_angle_wrap, pymod]
    rw [if_pos (by norm_num : |(190 : ℚ) - 0| > 180), h1]
    norm_num

/-- Witness for C7 at `path_angle = 100`, `curr_angle = 40`. -/
theorem move_to_target_turn_angle_wrap_witness :
    move_to_target_turn_angle 100 40 = 100 - 40 :=
  move_to_target_turn_angle_wrap.1 100 40 (by norm_num)

/-- C3: for a sensor snapshot whose readings outside the last two
entries include one above `wall_threshold`, `test_saw_wall` in
scheduled form (`thread = True`) stops its own timer, sets the obstacle
flag, sets `flag_skip` to 2, calls `wall_following` exactly once, then
clears the flag and restarts the timer; in query form
(`thread = False`) it returns `True` with no side effects; and with no
reading above the threshold it returns `False` with no side effects in
either form. -/
theorem test_saw_wall_correct (prox : List ℤ) (thr : ℤ) :
    ((∃ x ∈ prox.dropLast.dropLast, x > thr) →
      test_saw_wall prox true thr =
        (false, [TSWEvent.rtStop, TSWEvent.setFlagLocal true,
                 TSWEvent.setFlagSkip 2, TSWEvent.callWallFollowing,
                 TSWEvent.setFlagLocal false, TSWEvent.rtStart]) ∧
      (test_saw_wall prox true thr).2.count TSWEvent.callWallFollowing
        = 1 ∧
      test_saw_wall prox false thr = (true, [])) ∧
    ((∀ x ∈ prox.dropLast.dropLast, ¬ x > thr) →
      ∀ b : Bool, test_saw_wall prox b thr = (false, [])) := by
  constructor
  · intro h
    have hc : (prox.dropLast.dropLast).any (fun x => x > thr) = true := by
      simp only [List.any_eq_true, decide_eq_true_eq]
      exact h
    refine ⟨?_, ?_, ?_⟩ <;> simp [test_saw_wall, hc]
  · intro h b
    have hc : (prox.dropLast.dropLast).any (fun x => x > thr) = false := by
      simp only [List.any_eq_false, decide_eq_true_eq]
      exact h
    cases b <;> simp [test_saw_wall, hc]

/-- Witness for C3: a frontal reading of 600 against threshold 500. -/
theorem test_saw_wall_correct_witness :
    test_saw_wall [600, 0, 0, 0, 0, 0, 0] false 500 = (true, []) :=
  ((test_saw_wall_correct [600, 0, 0, 0, 0, 0, 0] 500).1 (by decide)).2.2

/-- C4: on the scripted detection sequence that reports an obstacle
once and then reports clear 15 times in a row, `wall_following`
terminates (sets `found_path`) after exactly those 15 consecutive
clear iterations — after only 14 it has not terminated — and its last
motor write before returning commands both wheels to 0. Run with the
source defaults `motor_speed = 100`, stored speed 100. -/
theorem wall_following_terminates_after_15_clears :
    ((wall_following_run 100 100 (true :: List.replicate 15 false)).1.found
        = true ∧
      (wall_following_run 100 100 (true :: List.replicate 15 false)).2.getLast?
        = some (0, 0)) ∧
    (wall_following_run 100 100 (true :: List.replicate 14 false)).1.found
        = false := by
  decide

/-- Helper for C2: while the flag stays clear and the counter has not
passed the target, each slice advances the counter by exactly 1/10. -/
lemma time_move_foldl_falses (target : ℚ) :
    ∀ (k : ℕ) (t : ℚ), t + (k : ℚ) / 10 ≤ target →
      List.foldl (time_move_step target) { phase := TMPhase.loop, t := t }
          (List.replicate k false)
        = { phase := TMPhase.loop, t := t + (k : ℚ) / 10 } := by
  intro k
  induction k with
  | zero => intro t ht; simp
  | succ n ih =>
      intro t ht
      have hn : (0 : ℚ) ≤ (n : ℚ) := Nat.cast_nonneg n
      have hcast : ((n + 1 : ℕ) : ℚ) = (n : ℚ) + 1 := by push_cast; ring
      rw [hcast] at ht
      have h0 : ¬ t > target := by
        push_neg
        nlinarith
      rw [List.replicate_succ, List.foldl_cons]
      have hstep :
          time_move_step target { phase := TMPhase.loop, t := t } false
            = { phase := TMPhase.loop, t := t + 1 / 10 } := by
        simp [time_move_step, h0]
      rw [hstep, ih (t + 1 / 10) (by linarith)]
      rw [hcast]
      congr 1
      ring

/-- Helper for C2: the busy-wait keeps spinning, unchanged, for as long
as the flag reads set. -/
lemma time_move_foldl_spins (target : ℚ) :
    ∀ (m : ℕ) (t : ℚ),
      List.foldl (time_move_step target) { phase := TMPhase.spin, t := t }
          (List.replicate m true)
        = { phase := TMPhase.spin, t := t } := by
  intro m
  induction m with
  | zero => intro t; simp
  | succ n ih =>
      intro t
      rw [List.replicate_succ, List.foldl_cons]
      have hstep :
          time_move_step target { phase := TMPhase.spin, t := t } true
            = { phase := TMPhase.spin, t := t } := by
        simp [time_move_step]
      rw [hstep]
      exact ih t

/-- C2: `time_move` polls the obstacle flag in fixed 0.1 s slices
(each clear poll below the target advances the counter by 1/10); a set
flag observed while `t ≤ target` sets the counter to the full planned
duration and enters the busy-wait; the busy-wait blocks, unchanged,
while the flag stays set; and on the full run — `k` clear slices taken
before the planned duration elapses, then the flag set for `m + 1`
observations, then clear — the wait completes (reaches `done`) after
just one further 0.1 slice, never re-running the remaining planned
duration. -/
theorem time_move_interrupt (target : ℚ) (k m : ℕ)
    (hk : (k : ℚ) / 10 ≤ target) :
    (∀ t : ℚ, t ≤ target →
        time_move_step target { phase := TMPhase.loop, t := t } false
          = { phase := TMPhase.loop, t := t + 1 / 10 }) ∧
    (∀ t : ℚ, t ≤ target →
        time_move_step target { phase := TMPhase.loop, t := t } true
          = { phase := TMPhase.spin, t := target }) ∧
    (∀ t : ℚ, time_move_step target { phase := TMPhase.spin, t := t } true
        = { phase := TMPhase.spin, t := t }) ∧
    time_move_run target
        (List.replicate k false ++
          true :: (List.replicate m true ++ [false, false, false]))
      = { phase := TMPhase.done, t := target + 1 / 10 } := by
  refine ⟨?_, ?_, ?_, ?_⟩
  · intro t ht
    simp [time_move_step, not_lt.mpr ht]
  · intro t ht
    simp [time_move_step, not_lt.mpr ht]
  · intro t
    simp [time_move_step]
  · unfold time_move_run
    rw [List.foldl_append]
    rw [time_move_foldl_falses target k 0 (by simpa using hk)]
    rw [List.foldl_cons]
    have hstep1 :
        time_move_step target { phase := TMPhase.loop, t := 0 + (k : ℚ) / 10 }
            true
          = { phase := TMPhase.spin, t := target } := by
      simp only [time_move_step]
      rw [if_neg (by push_neg; simpa using hk)]
      simp
    rw [hstep1, List.foldl_append, time_move_foldl_spins target m target]
    have hstep2 :
        time_move_step target { phase := TMPhase.spin, t := target } false
          = { phase := TMPhase.loop, t := target } := by
      simp [time_move_step]
    have hstep3 :
        time_move_step target { phase := TMPhase.loop, t := target } false
          = { phase := TMPhase.loop, t := target + 1 / 10 } := by
      simp [time_move_step]
    have hstep4 :
        time_move_step target
            { phase := TMPhase.loop, t := target + 1 / 10 } false
          = { phase := TMPhase.done, t := target + 1 / 10 } := by
      have : target + 1 / 10 > target := by linarith
      simp [time_move_step, this]
    simp only [List.foldl_cons, List.foldl_nil, hstep2, hstep3, hstep4]

/-- Witness for C2: target 1 s, flag set after three clear slices and
held for two more observations. -/
theorem time_move_interrupt_witness :
    time_move_run 1
        (List.replicate 3 false ++
          true :: (List.replicate 2 true ++ [false, false, false]))
      = { phase := TMPhase.done, t := 1 + 1 / 10 } :=
  (time_move_interrupt 1 3 2 (by norm_num)).2.2.2

/-- Helper for C10: every write a single `wall_following` iteration
emits is one of the hardcoded `(±100, ±100)` commands or the terminal
`stop()` write `(0, 0)`. -/
lemma wall_following_step_writes_shape (ms sp : ℤ) (s : WFState)
    (saw : Bool) :
    ∀ c ∈ (wall_following_step ms sp s saw).2,
      (|c.1| = 100 ∧ |c.2| = 100) ∨ c = (0, 0) := by
  intro c hc
  unfold wall_following_step at hc
  split at hc
  · simp at hc
  · split at hc <;> split at hc <;>
    · simp only [ge_iff_le] at hc
      split at hc <;> simp_all <;>
        rcases hc with hc | hc <;> subst hc <;> decide

/-- Helper for C10: the writes accumulated by the `wall_following` loop
keep that shape, for any initial accumulator that has it. -/
lemma wall_following_foldl_writes_shape (ms sp : ℤ) :
    ∀ (script : List Bool) (acc : WFState × List (ℤ × ℤ)),
      (∀ c ∈ acc.2, (|c.1| = 100 ∧ |c.2| = 100) ∨ c = (0, 0)) →
      ∀ c ∈ (script.foldl
          (fun acc saw =>
            let r := wall_following_step ms sp acc.1 saw
            (r.1, acc.2 ++ r.2)) acc).2,
        (|c.1| = 100 ∧ |c.2| = 100) ∨ c = (0, 0) := by
  intro script
  induction script with
  | nil => intro acc hacc c hc; exact hacc c hc
  | cons saw rest ih =>
      intro acc hacc c hc
      rw [List.foldl_cons] at hc
      refine ih _ ?_ c hc
      intro d hd
      rcases List.mem_append.mp hd with hd | hd
      · exact hacc d hd
      · exact wall_following_step_writes_shape ms sp acc.1 saw d hd

/-- C10 counterexample: it is not true that every wheel speed
`wall_following` commands has magnitude exactly 100 — on the scripted
run that triggers once and then reports clear 15 times, the terminal
`stop()` writes `(0, 0)`. -/
theorem wall_following_write_not_100 :
    (0, 0) ∈ (wall_following_run 100 100 (true :: List.replicate 15 false)).2
      ∧ ¬ (|(0 : ℤ)| = 100 ∧ |(0 : ℤ)| = 100) := by
  decide

/-- C10 (amended): the motor writes of `wall_following` are independent
of both its `motor_speed` parameter and the stored speed — the same
script yields literally the same run for any two settings — and every
write commands both wheels at magnitude exactly 100, except the
terminal `stop()` write `(0, 0)`. -/
theorem wall_following_speed_independent :
    (∀ (ms1 sp1 ms2 sp2 : ℤ) (script : List Bool),
        wall_following_run ms1 sp1 script
          = wall_following_run ms2 sp2 script) ∧
    (∀ (ms sp : ℤ) (script : List Bool),
        ∀ c ∈ (wall_following_run ms sp script).2,
          (|c.1| = 100 ∧ |c.2| = 100) ∨ c = (0, 0)) := by
  constructor
  · intro ms1 sp1 ms2 sp2 script
    rfl
  · intro ms sp script c hc
    refine wall_following_foldl_writes_shape ms sp script _ ?_ c hc
    intro d hd
    simp only [List.mem_singleton] at hd
    subst hd
    left
    constructor <;> decide

/-- Witness for C10's amended statement: runs at speeds (7, 9) and
(100, 100) coincide on a one-trigger script, and the first turn write
`(100, -100)` of that run has magnitude 100 on both wheels. -/
theorem wall_following_speed_independent_witness :
    wall_following_run 7 9 [true] = wall_following_run 100 100 [true] ∧
      ((|(100 : ℤ)| = 100 ∧ |(-100 : ℤ)| = 100) ∨
        ((100 : ℤ), (-100 : ℤ)) = ((0 : ℤ), (0 : ℤ))) :=
  ⟨wall_following_speed_independent.1 7 9 100 100 [true],
    wall_following_speed_independent.2 100 100 [true] (100, -100)
      (by decide)⟩
